import Mathlib

/-!
Shallow embedding of the networking-bgpvpn repository.

Namespace BgpvpnDb embeds networking_bgpvpn/neutron/db/bgpvpn_db.py
(class BGPVPNPluginDb): Python strings become lists of characters, the
bgpvpn_connections table becomes an explicit list of rows threaded through
each operation, and Python exceptions become Except errors paired with the
post-state of the table.

Namespace BgpvpnWorkflows embeds the UpdateBgpVpnAssociations workflow of
bgpvpn_dashboard/dashboards/project/bgpvpn/workflows.py: the external
bgpvpn_api collaborator is an explicit environment recording which calls
succeed and what the association listings return, and the reconciliation
returns the sequence of association create/delete API calls it issues
together with a success flag (false means a Python exception was raised
and propagated out of the method).
-/

namespace BgpvpnDb

/-- Python str, embedded as a list of characters. -/
abbrev Str : Type := List Char

/-- BGPVPNPluginDb._rtrd_list2str: format a Route Target list to a string.
An empty (falsy) list yields the empty string, otherwise the elements are
joined with commas. -/
def _rtrd_list2str (l : List Str) : Str :=
  if l = [] then [] else List.intercalate [','] l

/-- BGPVPNPluginDb._rtrd_str2list: format a Route Target string to a list.
An empty (falsy) string yields the empty list, otherwise the string is
split on commas. -/
def _rtrd_str2list (s : Str) : List Str :=
  if s = [] then [] else s.splitOn ','

/-- A row of the bgpvpn_connections table (class BGPVPNConnection).
The list-valued attributes are persisted in their comma-joined string
form. -/
structure BGPVPNConnection where
  id : Str
  tenant_id : Str
  name : Str
  type : Str
  route_targets : Str
  import_targets : Str
  export_targets : Str
  route_distinguishers : Str
  network_id : Str
  auto_aggregate : Bool
deriving DecidableEq, Repr

/-- The bgpvpn_connections table: the rows currently persisted. -/
abbrev Store := List BGPVPNConnection

/-- The dictionary produced by _make_bgpvpn_connection_dict with
fields=None (no projection): the list-valued attributes are deserialized
back to lists by _rtrd_str2list. -/
structure ConnectionDict where
  id : Str
  tenant_id : Str
  network_id : Str
  name : Str
  type : Str
  route_targets : List Str
  import_targets : List Str
  export_targets : List Str
  route_distinguishers : List Str
  auto_aggregate : Bool
deriving DecidableEq, Repr

/-- BGPVPNPluginDb._make_bgpvpn_connection_dict (with fields=None, the only
form the claims exercise, so the _fields projection is the identity). -/
def _make_bgpvpn_connection_dict (c : BGPVPNConnection) : ConnectionDict where
  id := c.id
  tenant_id := c.tenant_id
  network_id := c.network_id
  name := c.name
  type := c.type
  route_targets := _rtrd_str2list c.route_targets
  import_targets := _rtrd_str2list c.import_targets
  export_targets := _rtrd_str2list c.export_targets
  route_distinguishers := _rtrd_str2list c.route_distinguishers
  auto_aggregate := c.auto_aggregate

/-- The exceptions the persistence layer can raise. noResultFound is the
raw ORM sqlalchemy.orm.exc.NoResultFound; bgpvpnConnectionNotFound is the
wrapped BGPVPNConnectionNotFound raised by _get_bgpvpn_connection (it
carries the conn_id used in the message); missingRouteTarget is
BGPVPNConnectionMissingRouteTarget. -/
inductive DbErr where
  | noResultFound : DbErr
  | bgpvpnConnectionNotFound (conn_id : Str) : DbErr
  | missingRouteTarget : DbErr
deriving DecidableEq, Repr

/-- External collaborator neutron CommonDbMixin._get_by_id: a primary-key
query whose .one() raises NoResultFound when no row matches. Embedded as
the first row carrying the given id, if any. -/
def _get_by_id (st : Store) (id : Str) : Option BGPVPNConnection :=
  st.find? (fun c => decide (c.id = id))

/-- BGPVPNPluginDb._get_bgpvpn_connection: _get_by_id with the ORM
NoResultFound turned into the wrapped BGPVPNConnectionNotFound. -/
def _get_bgpvpn_connection (st : Store) (id : Str) :
    Except DbErr BGPVPNConnection :=
  match _get_by_id st id with
  | some c => .ok c
  | none => .error (.bgpvpnConnectionNotFound id)

/-- BGPVPNPluginDb.get_bgpvpn_connection (fields=None). -/
def get_bgpvpn_connection (st : Store) (id : Str) :
    Except DbErr ConnectionDict :=
  match _get_bgpvpn_connection st id with
  | .ok c => .ok (_make_bgpvpn_connection_dict c)
  | .error e => .error e

/-- The request body bgpvpn_connection of create_bgpvpn_connection.
route_distinguishers is read with .get (absent allowed, default falsy);
the other keys are read directly. -/
structure CreateRequest where
  name : Str
  type : Str
  route_targets : List Str
  import_targets : List Str
  export_targets : List Str
  route_distinguishers : Option (List Str)
  network_id : Str
  auto_aggregate : Bool
deriving DecidableEq, Repr

/-- BGPVPNPluginDb.create_bgpvpn_connection. The uuid generated for the
row and the tenant id resolved from the context are passed explicitly.
Returns the result together with the post-state of the table: on an empty
route_targets list the missing route-target error is raised before the
transaction opens, so the table is unchanged; otherwise the list fields
are serialized, the row is inserted and its dictionary form returned. -/
def create_bgpvpn_connection (st : Store) (c : CreateRequest)
    (new_id tenant_id : Str) : Except DbErr ConnectionDict × Store :=
  if c.route_targets = [] then
    (.error .missingRouteTarget, st)
  else
    let rt := _rtrd_list2str c.route_targets
    let i_rt := _rtrd_list2str c.import_targets
    let e_rt := _rtrd_list2str c.export_targets
    let rd := _rtrd_list2str (c.route_distinguishers.getD [])
    let row : BGPVPNConnection :=
      { id := new_id, tenant_id := tenant_id, name := c.name, type := c.type,
        route_targets := rt, import_targets := i_rt, export_targets := e_rt,
        route_distinguishers := rd, network_id := c.network_id,
        auto_aggregate := c.auto_aggregate }
    (.ok (_make_bgpvpn_connection_dict row), st ++ [row])

/-- The partial update dictionary passed to update_bgpvpn_connection:
none means the key is absent from the dictionary. -/
structure UpdateRequest where
  name : Option Str
  type : Option Str
  route_targets : Option (List Str)
  import_targets : Option (List Str)
  export_targets : Option (List Str)
  route_distinguishers : Option (List Str)
  network_id : Option Str
  auto_aggregate : Option Bool
deriving DecidableEq, Repr

/-- The row.update(dict) step of update_bgpvpn_connection: every key
present in the dictionary overwrites the corresponding column, the four
list-valued keys having been serialized by _rtrd_list2str just before.
(The if bgpvpn_conn guard of the source skips the update for an empty
dictionary; an all-absent request makes this function the identity, which
is the same behaviour.) -/
def _row_update (c : BGPVPNConnection) (u : UpdateRequest) : BGPVPNConnection where
  id := c.id
  tenant_id := c.tenant_id
  name := u.name.getD c.name
  type := u.type.getD c.type
  route_targets := (u.route_targets.map _rtrd_list2str).getD c.route_targets
  import_targets := (u.import_targets.map _rtrd_list2str).getD c.import_targets
  export_targets := (u.export_targets.map _rtrd_list2str).getD c.export_targets
  route_distinguishers :=
    (u.route_distinguishers.map _rtrd_list2str).getD c.route_distinguishers
  network_id := u.network_id.getD c.network_id
  auto_aggregate := u.auto_aggregate.getD c.auto_aggregate

/-- Committing the update: the row fetched by primary key (the first row
with that id) is replaced in the table. -/
def _store_update : Store → Str → UpdateRequest → Store
  | [], _, _ => []
  | c :: rest, id, u =>
    if c.id = id then _row_update c u :: rest
    else c :: _store_update rest id u

/-- BGPVPNPluginDb.update_bgpvpn_connection. An unknown id raises the
wrapped BGPVPNConnectionNotFound (the lookup goes through
_get_bgpvpn_connection) and the table is unchanged; otherwise the keys
present in the request are serialized and applied to the fetched row and
the dictionary form of the updated row is returned. -/
def update_bgpvpn_connection (st : Store) (id : Str) (u : UpdateRequest) :
    Except DbErr ConnectionDict × Store :=
  match _get_by_id st id with
  | none => (.error (.bgpvpnConnectionNotFound id), st)
  | some c =>
    (.ok (_make_bgpvpn_connection_dict (_row_update c u)), _store_update st id u)

/-- Committing the delete: the fetched row is removed from the table. -/
def _store_delete : Store → Str → Store
  | [], _ => []
  | c :: rest, id => if c.id = id then rest else c :: _store_delete rest id

/-- BGPVPNPluginDb.delete_bgpvpn_connection. The lookup uses the raw
_get_by_id, not the wrapping _get_bgpvpn_connection, so an unknown id
raises the ORM NoResultFound; on success the row is deleted and the row
object itself (not its dictionary form) is returned. -/
def delete_bgpvpn_connection (st : Store) (id : Str) :
    Except DbErr BGPVPNConnection × Store :=
  match _get_by_id st id with
  | none => (.error .noResultFound, st)
  | some c => (.ok c, _store_delete st id)

end BgpvpnDb

namespace BgpvpnWorkflows

/-- A resource id (router or network uuid): a Python string. -/
abbrev RId : Type := List Char

/-- An association object returned by the bgpvpn_api association listing:
its own id and the id of the associated resource (the router_id or
network_id attribute, depending on the association type). -/
structure Association where
  id : RId
  resource_id : RId
deriving DecidableEq, Repr

/-- One bgpvpn_api call issued by the reconciliation: an association
create for a resource id, or an association delete for an association
id. -/
inductive ApiCall where
  | create (resource_id : RId) : ApiCall
  | delete (association_id : RId) : ApiCall
deriving DecidableEq, Repr

/-- The bgpvpn_api collaborator for one association type, as observed by
one run of _handle_type: whether the initial association listing succeeds
and what it returns; whether the create call for a given resource
succeeds; and, for the removal loop, whether the per-resource re-listing
succeeds, what it returns at that moment, and whether the delete call for
a given association id succeeds. -/
structure Api where
  listOk : Bool
  listed : List Association
  createOk : RId → Bool
  relistOk : RId → Bool
  relisted : RId → List Association
  deleteOk : RId → Bool

/-- old_associations: the resource ids extracted from the initial
association listing. -/
def old_associations (api : Api) : List RId :=
  api.listed.map (fun a => a.resource_id)

/-- to_remove_associations = list(set(old_associations) -
set(associations)): the members of old_associations that are not in
associations, without duplicates. (Python set iteration order is
unspecified; one order is fixed here.) -/
def to_remove_associations (old_assocs assocs : List RId) : List RId :=
  (old_assocs.filter (fun x => decide (x ∉ assocs))).dedup

/-- to_add_associations = list(set(associations) -
set(old_associations)): the members of associations that are not in
old_associations, without duplicates. -/
def to_add_associations (old_assocs assocs : List RId) : List RId :=
  (assocs.filter (fun x => decide (x ∉ old_assocs))).dedup

/-- The addition loop of _handle_type: one association create call per
member of to_add_associations, in order. A failing call is still recorded
(it was issued) but raises, aborting the loop; the surrounding length
guard of the source is a no-op and is not repeated here. Returns the
calls issued and true iff no exception propagated. -/
def addLoop (api : Api) : List RId → List ApiCall × Bool
  | [] => ([], true)
  | r :: rest =>
    if api.createOk r then
      let next := addLoop api rest
      (ApiCall.create r :: next.1, next.2)
    else
      ([ApiCall.create r], false)

/-- The inner loop of the removal phase: over the re-listed associations,
every association whose resource id matches the resource being removed is
deleted (the source has no break, so several matching rows would all be
deleted); a failing delete is recorded and aborts. -/
def deleteMatching (api : Api) (resource : RId) :
    List Association → List ApiCall × Bool
  | [] => ([], true)
  | a :: rest =>
    if a.resource_id = resource then
      if api.deleteOk a.id then
        let next := deleteMatching api resource rest
        (ApiCall.delete a.id :: next.1, next.2)
      else
        ([ApiCall.delete a.id], false)
    else
      deleteMatching api resource rest

/-- The removal loop of _handle_type: for each resource in
to_remove_associations the association list is re-fetched and every
matching association deleted; a failing re-fetch or delete raises and
aborts the loop. -/
def removeLoop (api : Api) : List RId → List ApiCall × Bool
  | [] => ([], true)
  | r :: rest =>
    if api.relistOk r then
      let here := deleteMatching api r (api.relisted r)
      if here.2 then
        let next := removeLoop api rest
        (here.1 ++ next.1, next.2)
      else
        (here.1, false)
    else
      ([], false)

/-- UpdateBgpVpnAssociations._handle_type for one association type: list
the current associations (abort on failure, issuing nothing), compute the
to-remove and to-add deltas, run the addition loop, then the removal
loop. Returns the bgpvpn_api calls issued and true iff no exception
propagated out of the method. -/
def _handle_type (api : Api) (associations : List RId) : List ApiCall × Bool :=
  if api.listOk then
    let to_remove := to_remove_associations (old_associations api) associations
    let to_add := to_add_associations (old_associations api) associations
    let added := addLoop api to_add
    if added.2 then
      let removed := removeLoop api to_remove
      (added.1 ++ removed.1, removed.2)
    else
      (added.1, false)
  else
    ([], false)

/-- The request data seen by UpdateBgpVpnAssociations.handle: whether the
networks_association and routers_association keys are present, and their
values when they are. -/
structure HandleData where
  networks_association : Option (List RId)
  routers_association : Option (List RId)
deriving DecidableEq, Repr

/-- The exception escaping the try block of handle before the enclosing
except swallows it: unsupported is the Exception raised when neither
association key is present (Associations type is not supported); subOp is
an exception re-raised by a _handle_type call. -/
inductive HandleExc where
  | unsupported : HandleExc
  | subOp : HandleExc
deriving DecidableEq, Repr

/-- The try block of UpdateBgpVpnAssociations.handle: networks first, then
routers, tracking the action flag; it raises when a sub-operation raises,
or the unsupported-type exception when neither key is present. -/
def handleBody (apiN apiR : Api) (d : HandleData) : Except HandleExc Unit :=
  match d.networks_association with
  | some ns =>
    if (_handle_type apiN ns).2 then
      match d.routers_association with
      | some rs =>
        if (_handle_type apiR rs).2 then .ok () else .error .subOp
      | none => .ok ()
    else .error .subOp
  | none =>
    match d.routers_association with
    | some rs =>
      if (_handle_type apiR rs).2 then .ok () else .error .subOp
    | none => .error .unsupported

/-- UpdateBgpVpnAssociations.handle: the same control flow translated
directly to its boolean return value, the enclosing except turning every
exception into False. (Defined independently of handleBody; their
agreement is proved below.) -/
def handle (apiN apiR : Api) (d : HandleData) : Bool :=
  match d.networks_association with
  | some ns =>
    if (_handle_type apiN ns).2 then
      match d.routers_association with
      | some rs => (_handle_type apiR rs).2
      | none => true
    else false
  | none =>
    match d.routers_association with
    | some rs => (_handle_type apiR rs).2
    | none => false

end BgpvpnWorkflows

/-- A bgpvpn_api environment in which every call succeeds and both the
initial listing and every re-listing are empty: a concrete instance used
to evaluate the theorems below. -/
def apiAllOk : BgpvpnWorkflows.Api :=
  ⟨true, [], fun _ => true, fun _ => true, fun _ => [], fun _ => true⟩

/-- A bgpvpn_api environment whose initial association listing fails. -/
def apiListFail : BgpvpnWorkflows.Api :=
  ⟨false, [], fun _ => true, fun _ => true, fun _ => [], fun _ => true⟩

/-- A bgpvpn_api environment in which one association is initially listed
but has vanished from every re-listing (the re-listing only holds an
association of a different resource). -/
def apiVanished : BgpvpnWorkflows.Api :=
  ⟨true, [⟨['i'], ['a']⟩], fun _ => true, fun _ => true,
   fun _ => [⟨['j'], ['b']⟩], fun _ => true⟩

open BgpvpnDb BgpvpnWorkflows

/-- Membership in the to-remove delta. -/
theorem mem_to_remove_associations {old_assocs assocs : List RId} {x : RId} :
    x ∈ to_remove_associations old_assocs assocs ↔ x ∈ old_assocs ∧ x ∉ assocs := by
  simp [to_remove_associations, List.mem_dedup, List.mem_filter]

/-- Membership in the to-add delta. -/
theorem mem_to_add_associations {old_assocs assocs : List RId} {x : RId} :
    x ∈ to_add_associations old_assocs assocs ↔ x ∈ assocs ∧ x ∉ old_assocs := by
  simp [to_add_associations, List.mem_dedup, List.mem_filter]

/-- Claim C1: for every pair of id sets (current, desired), the delta
computed by _handle_type satisfies toRemove = current minus desired and
toAdd = desired minus current, the two deltas are disjoint, and
desired = (current minus toRemove) union toAdd, all read as membership of
ids. -/
theorem c1_delta_partition (current desired : List RId) :
    (∀ x, x ∈ to_remove_associations current desired ↔ x ∈ current ∧ x ∉ desired)
    ∧ (∀ x, x ∈ to_add_associations current desired ↔ x ∈ desired ∧ x ∉ current)
    ∧ (∀ x, ¬(x ∈ to_add_associations current desired
        ∧ x ∈ to_remove_associations current desired))
    ∧ (∀ x, x ∈ desired ↔
        ((x ∈ current ∧ x ∉ to_remove_associations current desired)
          ∨ x ∈ to_add_associations current desired)) := by
  refine ⟨fun x => mem_to_remove_associations, fun x => mem_to_add_associations,
    fun x => ?_, fun x => ?_⟩
  · simp only [mem_to_add_associations, mem_to_remove_associations]
    tauto
  · simp only [mem_to_remove_associations, mem_to_add_associations]
    by_cases hc : x ∈ current <;> by_cases hd : x ∈ desired <;> simp [hc, hd]

/-- Claim C2: create_bgpvpn_connection with an empty route_targets list
raises the missing route-target error and leaves the table unchanged. -/
theorem c2_create_missing_route_target (st : Store) (c : CreateRequest)
    (new_id tenant_id : Str) (h : c.route_targets = []) :
    create_bgpvpn_connection st c new_id tenant_id
      = (.error .missingRouteTarget, st) := by
  unfold create_bgpvpn_connection
  rw [if_pos h]

/-- Witness for claim C2 at a concrete non-empty table. -/
theorem c2_create_missing_route_target_witness :
    create_bgpvpn_connection
      [{ id := ['r'], tenant_id := ['t'], name := ['n'], type := ['l', '3'],
         route_targets := ['x'], import_targets := [], export_targets := [],
         route_distinguishers := [], network_id := [], auto_aggregate := false }]
      { name := ['m'], type := ['l', '3'], route_targets := [],
        import_targets := [['a']], export_targets := [],
        route_distinguishers := none, network_id := ['w'], auto_aggregate := true }
      ['u'] ['t']
    = (.error .missingRouteTarget,
       [{ id := ['r'], tenant_id := ['t'], name := ['n'], type := ['l', '3'],
          route_targets := ['x'], import_targets := [], export_targets := [],
          route_distinguishers := [], network_id := [], auto_aggregate := false }]) :=
  c2_create_missing_route_target _ _ _ _ rfl

/-- Claim C3 counterexample: the singleton list holding the empty string
is made of comma-free strings, yet it serializes to the empty string and
so deserializes to the empty list, not to itself. -/
theorem c3_roundtrip_counterexample :
    (',' ∉ ([] : Str))
    ∧ _rtrd_str2list (_rtrd_list2str [([] : Str)]) = []
    ∧ ([] : List Str) ≠ [([] : Str)] := by
  decide

/-- Claim C3 as amended: for every list of comma-free route-target strings
other than the singleton list holding the empty string, deserializing the
serialization returns the original list; the empty list serializes to the
empty string and the empty string deserializes to the empty list. -/
theorem c3_roundtrip (l : List Str) (hcomma : ∀ s ∈ l, ',' ∉ s)
    (hne : l ≠ [[]]) :
    _rtrd_str2list (_rtrd_list2str l) = l
    ∧ _rtrd_list2str [] = ([] : Str)
    ∧ _rtrd_str2list [] = ([] : List Str) := by
  refine ⟨?_, rfl, rfl⟩
  by_cases h0 : l = []
  · subst h0
    rfl
  · have hsp := List.splitOn_intercalate l ',' hcomma h0
    by_cases hi : List.intercalate [','] l = []
    · exfalso
      rw [hi, List.splitOn_nil] at hsp
      exact hne hsp.symm
    · unfold _rtrd_list2str _rtrd_str2list
      rw [if_neg h0, if_neg hi]
      exact hsp

/-- Witness for claim C3 on the round trip of two concrete route
targets. -/
theorem c3_roundtrip_witness :
    _rtrd_str2list (_rtrd_list2str [['6', '5', ':', '1'], ['6', '5', ':', '2']])
        = [['6', '5', ':', '1'], ['6', '5', ':', '2']]
    ∧ _rtrd_list2str [] = ([] : Str)
    ∧ _rtrd_str2list [] = ([] : List Str) :=
  c3_roundtrip [['6', '5', ':', '1'], ['6', '5', ':', '2']] (by decide) (by decide)

/-- Claim C6 counterexample: on an unknown id, delete raises the raw ORM
NoResultFound while get raises the wrapped BGPVPNConnectionNotFound, so
delete does not fail with the same not-found error type as get. -/
theorem c6_delete_error_counterexample :
    (delete_bgpvpn_connection [] ['x']).1 = .error .noResultFound
    ∧ get_bgpvpn_connection [] ['x'] = .error (.bgpvpnConnectionNotFound ['x'])
    ∧ DbErr.noResultFound ≠ DbErr.bgpvpnConnectionNotFound ['x'] :=
  ⟨rfl, rfl, by decide⟩

/-- Claim C6 as amended: delete_bgpvpn_connection on an id with no stored
row fails with the raw ORM NoResultFound (not the wrapped not-found error
that get raises) leaving the table unchanged, and on an existing id
returns the deleted row. -/
theorem c6_delete_behaviour (st : Store) (id : Str) :
    (_get_by_id st id = none →
      delete_bgpvpn_connection st id = (.error .noResultFound, st))
    ∧ (∀ c, _get_by_id st id = some c →
      delete_bgpvpn_connection st id = (.ok c, _store_delete st id)) := by
  constructor
  · intro h
    simp only [delete_bgpvpn_connection, h]
  · intro c h
    simp only [delete_bgpvpn_connection, h]

/-- Witness for claim C6 (amended form) at a one-row table and at the
empty table. -/
theorem c6_delete_behaviour_witness :
    delete_bgpvpn_connection
      [{ id := ['r'], tenant_id := ['t'], name := ['n'], type := ['l', '3'],
         route_targets := ['x'], import_targets := [], export_targets := [],
         route_distinguishers := [], network_id := [], auto_aggregate := false }]
      ['r']
    = (.ok { id := ['r'], tenant_id := ['t'], name := ['n'], type := ['l', '3'],
             route_targets := ['x'], import_targets := [], export_targets := [],
             route_distinguishers := [], network_id := [],
             auto_aggregate := false }, [])
    ∧ delete_bgpvpn_connection [] ['r'] = (.error .noResultFound, []) :=
  ⟨(c6_delete_behaviour _ ['r']).2 _ rfl, (c6_delete_behaviour [] ['r']).1 rfl⟩

/-- The primary-key lookup on a cons cell. -/
theorem get_by_id_cons (hd : BGPVPNConnection) (tl : Store) (id : Str) :
    _get_by_id (hd :: tl) id
      = if hd.id = id then some hd else _get_by_id tl id := by
  by_cases hid : hd.id = id
  · rw [if_pos hid]
    unfold _get_by_id
    exact List.find?_cons_of_pos _ (by simp [hid])
  · rw [if_neg hid]
    unfold _get_by_id
    exact List.find?_cons_of_neg _ (by simp [hid])

/-- Applying an update dictionary never changes the primary key. -/
theorem row_update_keeps_id (c : BGPVPNConnection) (u : UpdateRequest) :
    (_row_update c u).id = c.id := rfl

/-- After committing an update for an id that was found, the lookup of
that id returns the updated row. -/
theorem get_by_id_store_update (u : UpdateRequest) :
    ∀ (st : Store) (id : Str) (c : BGPVPNConnection),
      _get_by_id st id = some c →
      _get_by_id (_store_update st id u) id = some (_row_update c u) := by
  intro st
  induction st with
  | nil =>
    intro id c h
    simp [_get_by_id] at h
  | cons hd tl ih =>
    intro id c h
    rw [get_by_id_cons] at h
    by_cases hid : hd.id = id
    · rw [if_pos hid] at h
      injection h with h
      subst h
      have hsu : _store_update (hd :: tl) id u = _row_update hd u :: tl := by
        simp [_store_update, hid]
      rw [hsu, get_by_id_cons, if_pos (show (_row_update hd u).id = id from hid)]
    · rw [if_neg hid] at h
      have hsu : _store_update (hd :: tl) id u = hd :: _store_update tl id u := by
        simp [_store_update, hid]
      rw [hsu, get_by_id_cons, if_neg hid]
      exact ih id c h

/-- Claim C5: update_bgpvpn_connection with a partial field set applies
exactly the fields present in the request (the list-valued ones after
serialization), leaves every absent field unchanged in the stored row
(observable through a subsequent get), and fails with the wrapped
not-found error on an unknown id, leaving the table unchanged. -/
theorem c5_update_partial_fields (st : Store) (id : Str) (u : UpdateRequest) :
    (_get_by_id st id = none →
      update_bgpvpn_connection st id u
        = (.error (.bgpvpnConnectionNotFound id), st))
    ∧ (∀ c, _get_by_id st id = some c →
        (update_bgpvpn_connection st id u).1
            = .ok (_make_bgpvpn_connection_dict (_row_update c u))
        ∧ get_bgpvpn_connection (update_bgpvpn_connection st id u).2 id
            = .ok (_make_bgpvpn_connection_dict (_row_update c u))
        ∧ (u.name = none → (_row_update c u).name = c.name)
        ∧ (u.type = none → (_row_update c u).type = c.type)
        ∧ (u.route_targets = none →
            (_row_update c u).route_targets = c.route_targets)
        ∧ (u.import_targets = none →
            (_row_update c u).import_targets = c.import_targets)
        ∧ (u.export_targets = none →
            (_row_update c u).export_targets = c.export_targets)
        ∧ (u.route_distinguishers = none →
            (_row_update c u).route_distinguishers = c.route_distinguishers)
        ∧ (u.network_id = none → (_row_update c u).network_id = c.network_id)
        ∧ (u.auto_aggregate = none →
            (_row_update c u).auto_aggregate = c.auto_aggregate)
        ∧ (∀ l, u.route_targets = some l →
            (_row_update c u).route_targets = _rtrd_list2str l)) := by
  constructor
  · intro h
    simp only [update_bgpvpn_connection, h]
  · intro c h
    have h2 := get_by_id_store_update u st id c h
    refine ⟨?_, ?_, ?_, ?_, ?_, ?_, ?_, ?_, ?_, ?_, ?_⟩
    · simp only [update_bgpvpn_connection, h]
    · simp only [update_bgpvpn_connection, h]
      simp only [get_bgpvpn_connection, _get_bgpvpn_connection, h2]
    · intro hf; simp [_row_update, hf]
    · intro hf; simp [_row_update, hf]
    · intro hf; simp [_row_update, hf]
    · intro hf; simp [_row_update, hf]
    · intro hf; simp [_row_update, hf]
    · intro hf; simp [_row_update, hf]
    · intro hf; simp [_row_update, hf]
    · intro hf; simp [_row_update, hf]
    · intro l hf; simp [_row_update, hf]

/-- Witness for claim C5: a one-row table updated with a request that only
carries a new name, and the not-found case on the empty table. -/
theorem c5_update_partial_fields_witness :
    (update_bgpvpn_connection
        [{ id := ['r'], tenant_id := ['t'], name := ['n'], type := ['l', '3'],
           route_targets := ['x'], import_targets := [], export_targets := [],
           route_distinguishers := [], network_id := [], auto_aggregate := false }]
        ['r']
        { name := some ['m'], type := none, route_targets := none,
          import_targets := none, export_targets := none,
          route_distinguishers := none, network_id := none,
          auto_aggregate := none }).1
      = .ok (_make_bgpvpn_connection_dict (_row_update
          { id := ['r'], tenant_id := ['t'], name := ['n'], type := ['l', '3'],
            route_targets := ['x'], import_targets := [], export_targets := [],
            route_distinguishers := [], network_id := [], auto_aggregate := false }
          { name := some ['m'], type := none, route_targets := none,
            import_targets := none, export_targets := none,
            route_distinguishers := none, network_id := none,
            auto_aggregate := none }))
    ∧ (_row_update
          { id := ['r'], tenant_id := ['t'], name := ['n'], type := ['l', '3'],
            route_targets := ['x'], import_targets := [], export_targets := [],
            route_distinguishers := [], network_id := [], auto_aggregate := false }
          { name := some ['m'], type := none, route_targets := none,
            import_targets := none, export_targets := none,
            route_distinguishers := none, network_id := none,
            auto_aggregate := none }).route_targets = ['x']
    ∧ update_bgpvpn_connection [] ['r']
        { name := some ['m'], type := none, route_targets := none,
          import_targets := none, export_targets := none,
          route_distinguishers := none, network_id := none,
          auto_aggregate := none }
      = (.error (.bgpvpnConnectionNotFound ['r']), []) := by
  have h := (c5_update_partial_fields
    [{ id := ['r'], tenant_id := ['t'], name := ['n'], type := ['l', '3'],
       route_targets := ['x'], import_targets := [], export_targets := [],
       route_distinguishers := [], network_id := [], auto_aggregate := false }]
    ['r']
    { name := some ['m'], type := none, route_targets := none,
      import_targets := none, export_targets := none,
      route_distinguishers := none, network_id := none,
      auto_aggregate := none }).2 _ rfl
  exact ⟨h.1, h.2.2.2.2.1 rfl,
    (c5_update_partial_fields [] ['r'] _).1 rfl⟩

/-- Every call issued by the addition loop is an association create. -/
theorem addLoop_calls_create (api : Api) :
    ∀ l, ∀ call ∈ (addLoop api l).1, ∃ r, call = ApiCall.create r := by
  intro l
  induction l with
  | nil =>
    intro call h
    simp [addLoop] at h
  | cons r rest ih =>
    intro call h
    cases hc : api.createOk r
    · simp [addLoop, hc] at h
      exact ⟨r, h⟩
    · simp [addLoop, hc] at h
      rcases h with h | h
      · exact ⟨r, h⟩
      · exact ih call h

/-- Every call issued by the matching-deletion inner loop is an
association delete. -/
theorem deleteMatching_calls_delete (api : Api) (resource : RId) :
    ∀ l, ∀ call ∈ (deleteMatching api resource l).1, ∃ i, call = ApiCall.delete i := by
  intro l
  induction l with
  | nil =>
    intro call h
    simp [deleteMatching] at h
  | cons a rest ih =>
    intro call h
    by_cases hm : a.resource_id = resource
    · cases hd : api.deleteOk a.id
      · simp [deleteMatching, hm, hd] at h
        exact ⟨a.id, h⟩
      · simp [deleteMatching, hm, hd] at h
        rcases h with h | h
        · exact ⟨a.id, h⟩
        · exact ih call h
    · simp [deleteMatching, hm] at h
      exact ih call h

/-- Every call issued by the removal loop is an association delete. -/
theorem removeLoop_calls_delete (api : Api) :
    ∀ l, ∀ call ∈ (removeLoop api l).1, ∃ i, call = ApiCall.delete i := by
  intro l
  induction l with
  | nil =>
    intro call h
    simp [removeLoop] at h
  | cons r rest ih =>
    intro call h
    cases ho : api.relistOk r
    · simp [removeLoop, ho] at h
    · cases hh : (deleteMatching api r (api.relisted r)).2
      · simp [removeLoop, ho, hh] at h
        exact deleteMatching_calls_delete api r _ call h
      · simp [removeLoop, ho, hh] at h
        rcases h with h | h
        · exact deleteMatching_calls_delete api r _ call h
        · exact ih call h

/-- Claim C8: in every _handle_type reconciliation the sequence of issued
bgpvpn_api calls is a block of association creates (covering toAdd)
followed by a block of association deletes (covering toRemove): all adds
are issued before any remove. -/
theorem c8_adds_before_removes (api : Api) (associations : List RId) :
    ∃ adds removes,
      (_handle_type api associations).1 = adds ++ removes
      ∧ (∀ call ∈ adds, ∃ r, call = ApiCall.create r)
      ∧ (∀ call ∈ removes, ∃ i, call = ApiCall.delete i) := by
  cases hl : api.listOk
  · exact ⟨[], [], by simp [_handle_type, hl], by simp, by simp⟩
  · cases ha : (addLoop api (to_add_associations (old_associations api) associations)).2
    · exact ⟨(addLoop api (to_add_associations (old_associations api) associations)).1, [],
        by simp [_handle_type, hl, ha], addLoop_calls_create api _, by simp⟩
    · exact ⟨(addLoop api (to_add_associations (old_associations api) associations)).1,
        (removeLoop api (to_remove_associations (old_associations api) associations)).1,
        by simp [_handle_type, hl, ha], addLoop_calls_create api _,
        removeLoop_calls_delete api _⟩

/-- Claim C7: when the desired id set equals the current one, _handle_type
issues no call at all and succeeds; with no current association and two
distinct desired ids whose creates succeed, it issues exactly the two
creates and no delete. -/
theorem c7_reconcile_counts (api : Api) :
    (∀ associations, api.listOk = true →
      (∀ x, x ∈ old_associations api ↔ x ∈ associations) →
      _handle_type api associations = ([], true))
    ∧ (∀ a b, api.listOk = true → api.listed = [] →
      api.createOk a = true → api.createOk b = true → a ≠ b →
      _handle_type api [a, b] = ([ApiCall.create a, ApiCall.create b], true)) := by
  constructor
  · intro assocs hl hset
    have hf : (old_associations api).filter (fun x => decide (x ∉ assocs)) = [] := by
      rw [List.filter_eq_nil_iff]
      intro x hx
      simp [(hset x).mp hx]
    have hrem : to_remove_associations (old_associations api) assocs = [] := by
      unfold to_remove_associations
      rw [hf, List.dedup_nil]
    have hg : assocs.filter (fun x => decide (x ∉ old_associations api)) = [] := by
      rw [List.filter_eq_nil_iff]
      intro x hx
      simp [(hset x).mpr hx]
    have hadd : to_add_associations (old_associations api) assocs = [] := by
      unfold to_add_associations
      rw [hg, List.dedup_nil]
    simp [_handle_type, hl, hrem, hadd, addLoop, removeLoop]
  · intro a b hl hlisted hca hcb hne
    have hold : old_associations api = [] := by simp [old_associations, hlisted]
    have hadd : to_add_associations (old_associations api) [a, b] = [a, b] := by
      rw [hold]
      unfold to_add_associations
      have hfilter : ([a, b] : List RId).filter
          (fun x => decide (x ∉ ([] : List RId))) = [a, b] := by simp
      rw [hfilter, List.dedup_cons_of_not_mem (by simp [hne]),
        List.dedup_cons_of_not_mem (by simp), List.dedup_nil]
    have hrem : to_remove_associations (old_associations api) [a, b] = [] := by
      rw [hold]
      simp [to_remove_associations]
    simp [_handle_type, hl, hadd, hrem, addLoop, hca, hcb, removeLoop]

/-- Witness for claim C7: the no-op reconciliation on a matching listing,
and the two-create reconciliation from an empty listing, both evaluated. -/
theorem c7_reconcile_counts_witness :
    _handle_type apiVanished [['a']] = ([], true)
    ∧ _handle_type apiAllOk [['a'], ['b']]
        = ([ApiCall.create ['a'], ApiCall.create ['b']], true) :=
  ⟨(c7_reconcile_counts apiVanished).1 [['a']] rfl (fun _ => Iff.rfl),
   (c7_reconcile_counts apiAllOk).2 ['a'] ['b'] rfl rfl rfl rfl (by decide)⟩

/-- If no re-listed association matches the resource, the inner loop
issues nothing and succeeds. -/
theorem deleteMatching_of_no_match (api : Api) (resource : RId) :
    ∀ l, (∀ a ∈ l, a.resource_id ≠ resource) →
      deleteMatching api resource l = ([], true) := by
  intro l
  induction l with
  | nil =>
    intro _
    rfl
  | cons a rest ih =>
    intro h
    have ha : a.resource_id ≠ resource := h a (by simp)
    simp only [deleteMatching, if_neg ha]
    exact ih (fun b hb => h b (by simp [hb]))

/-- Claim C10: in the removal phase, a resource of toRemove whose
re-fetched association list holds no matching association is skipped
silently: no delete call is issued for it, no error is raised, and the
loop continues exactly as if the resource were absent. -/
theorem c10_vanished_resource_skipped (api : Api) (resource : RId)
    (rest : List RId) (hok : api.relistOk resource = true)
    (hnone : ∀ a ∈ api.relisted resource, a.resource_id ≠ resource) :
    deleteMatching api resource (api.relisted resource) = ([], true)
    ∧ removeLoop api (resource :: rest) = removeLoop api rest := by
  have hdm := deleteMatching_of_no_match api resource (api.relisted resource) hnone
  refine ⟨hdm, ?_⟩
  simp [removeLoop, hok, hdm]

/-- Witness for claim C10: the resource of the initial listing has
vanished from the re-listing, and the removal loop for it collapses to
the empty loop. -/
theorem c10_vanished_resource_skipped_witness :
    deleteMatching apiVanished ['a'] (apiVanished.relisted ['a']) = ([], true)
    ∧ removeLoop apiVanished [['a']] = removeLoop apiVanished [] :=
  c10_vanished_resource_skipped apiVanished ['a'] [] rfl (by decide)

/-- Claim C4: handle fails with the unsupported-association-type exception
(returning False) when neither association key is present; otherwise it
returns True exactly when no per-type sub-operation raised. -/
theorem c4_handle_aggregation (apiN apiR : Api) (d : HandleData) :
    (d.networks_association = none → d.routers_association = none →
      handleBody apiN apiR d = .error .unsupported ∧ handle apiN apiR d = false)
    ∧ ((d.networks_association ≠ none ∨ d.routers_association ≠ none) →
      (handle apiN apiR d = true ↔
        (∀ ns, d.networks_association = some ns → (_handle_type apiN ns).2 = true)
        ∧ (∀ rs, d.routers_association = some rs → (_handle_type apiR rs).2 = true))) := by
  rcases d with ⟨no, ro⟩
  rcases no with _ | ns <;> rcases ro with _ | rs
  · simp [handleBody, handle]
  · cases hfr : (_handle_type apiR rs).2 <;> simp [handleBody, handle, hfr]
  · cases hfn : (_handle_type apiN ns).2 <;> simp [handleBody, handle, hfn]
  · cases hfn : (_handle_type apiN ns).2 <;> cases hfr : (_handle_type apiR rs).2 <;>
      simp [handleBody, handle, hfn, hfr]

/-- Witness for claim C4: the unsupported case returns False, a present
networks key with a succeeding sub-operation returns True. -/
theorem c4_handle_aggregation_witness :
    handle apiAllOk apiAllOk ⟨none, none⟩ = false
    ∧ handle apiAllOk apiAllOk ⟨some [], none⟩ = true := by
  constructor
  · exact ((c4_handle_aggregation apiAllOk apiAllOk ⟨none, none⟩).1 rfl rfl).2
  · refine ((c4_handle_aggregation apiAllOk apiAllOk ⟨some [], none⟩).2
      (by simp)).mpr ⟨?_, ?_⟩
    · intro ns hns
      cases hns
      rfl
    · intro rs hrs
      exact absurd hrs (by simp)

/-- Claim C9: handle never propagates an exception: it returns True when
the try block completes and False for every exception the try block
raises (from a sub-operation or from the unsupported-type check). -/
theorem c9_handle_never_propagates (apiN apiR : Api) (d : HandleData) :
    (handleBody apiN apiR d = .ok () → handle apiN apiR d = true)
    ∧ (∀ e, handleBody apiN apiR d = .error e → handle apiN apiR d = false) := by
  rcases d with ⟨no, ro⟩
  rcases no with _ | ns <;> rcases ro with _ | rs
  · simp [handleBody, handle]
  · cases hfr : (_handle_type apiR rs).2 <;> simp [handleBody, handle, hfr]
  · cases hfn : (_handle_type apiN ns).2 <;> simp [handleBody, handle, hfn]
  · cases hfn : (_handle_type apiN ns).2 <;> cases hfr : (_handle_type apiR rs).2 <;>
      simp [handleBody, handle, hfn, hfr]

/-- Witness for claim C9: a completing body maps to True, a raising body
(failed listing) maps to False. -/
theorem c9_handle_never_propagates_witness :
    handle apiAllOk apiAllOk ⟨some [], none⟩ = true
    ∧ handle apiListFail apiAllOk ⟨some [], none⟩ = false :=
  ⟨(c9_handle_never_propagates apiAllOk apiAllOk ⟨some [], none⟩).1 rfl,
   (c9_handle_never_propagates apiListFail apiAllOk ⟨some [], none⟩).2 .subOp rfl⟩
